import Mathlib

/-!
Shallow embedding of `start_services.py`, a deployment-orchestration script.

The script shells out to external tools (`git`, `docker`); those collaborators
are modelled as oracles: an environment record supplies the pass/fail outcome
of every external invocation (and, for enumeration commands, their captured
standard output).  Each embedded function returns the list of observable
effects it performs (commands run, sleeps, directory changes, file copies,
warnings printed, summary lines printed) together with a termination outcome
mirroring Python control flow: normal return, a propagating exception, or a
`sys.exit` (`SystemExit`, which `except Exception` does not catch).

Diagnostic `print` calls that carry no control-flow effect are not modelled as
events, except for warnings emitted by guarded cleanup steps and the final
fixed endpoint summary, which the specification refers to.

`os.path.exists` calls are resolved against an explicit file-system oracle
(`fs`, the list of existing paths relative to the script's starting
directory) together with the current working directory as changed by
`os.chdir`, because `clone_supabase_repo` calls `os.chdir("supabase")` before
running `git pull` and the retry helper's existence checks use relative
paths.
-/

/-- Observable effects of the script: an external command invocation (argv),
a `time.sleep`, an `os.chdir`, a `shutil.copyfile`, a warning printed by a
guarded cleanup step, and a line of the final endpoint summary. -/
inductive Event where
  | run (args : List String)
  | sleep (secs : Nat)
  | chdir (dir : String)
  | copyFile (src dst : String)
  | warn (msg : String)
  | printLn (s : String)
  deriving Repr, DecidableEq

/-- Termination outcome of a piece of the script: normal completion, a
propagating Python exception (caught by `except Exception`), or a
`sys.exit(code)` (`SystemExit`, not caught by `except Exception`). -/
inductive Outcome where
  | ok
  | raised (msg : String)
  | exited (code : Nat)
  deriving Repr, DecidableEq

/-- Sequencing in the embedded script: run `a`; if it completed normally,
run the continuation and append its events, otherwise stop with `a`'s
events and outcome (exception / SystemExit propagation). -/
def seqO (a : List Event × Outcome) (k : Unit → List Event × Outcome) :
    List Event × Outcome :=
  match a with
  | (evs, Outcome.ok) => ((evs ++ (k ()).1), (k ()).2)
  | (evs, o) => (evs, o)

/-- Resolve a relative path against the current working directory (a stack of
directory components; the script only ever does `os.chdir("supabase")` and
`os.chdir("..")` from its starting directory). -/
def resolvePath (cwd : List String) (p : String) : String :=
  String.intercalate "/" (cwd ++ [p])

/-- The `os.path.exists` oracle: `fs` lists the existing paths relative to the
script's starting directory. -/
def pathExists (fs : List String) (cwd : List String) (p : String) : Bool :=
  fs.contains (resolvePath cwd p)

/-- Outcomes of the external commands issued by one call of
`git_command_with_retry`: per attempt index, the outcome of
`git config --global http.sslVerify false` (pull only), of the main git
command, and of `git config --global http.sslVerify true` (pull only). -/
structure GitCallEnv where
  cfgFalseOk : Nat → Bool
  cmdOk : Nat → Bool
  cfgTrueOk : Nat → Bool

def cfgFalseCmd : List String :=
  ["git", "config", "--global", "http.sslVerify", "false"]

def cfgTrueCmd : List String :=
  ["git", "config", "--global", "http.sslVerify", "true"]

def cloneCmd : List String :=
  ["git", "clone", "--filter=blob:none", "--no-checkout",
   "https://github.com/supabase/supabase.git"]

def sparseInitCmd : List String := ["git", "sparse-checkout", "init", "--cone"]

def sparseSetCmd : List String := ["git", "sparse-checkout", "set", "docker"]

def checkoutCmd : List String := ["git", "checkout", "master"]

def pullCmd : List String := ["git", "pull"]

/-- The `cmd[0] == "git" and cmd[1] == "pull"` test of the retry helper. -/
def isPullCmd (cmd : List String) : Bool :=
  cmd.take 2 == ["git", "pull"]

/-- One iteration of the retry loop's `try` body: for a pull, first
`git config ... false` (on success the setting becomes disabled), then the
command, then `git config ... true` (on success the setting becomes enabled);
any `CalledProcessError` aborts the body.  Returns the events, the
`http.sslVerify` state after the body, and whether the body completed
(reached `return`).  A failing `git config` is assumed to leave the setting
unchanged. -/
def gitAttempt (e : GitCallEnv) (isPull : Bool) (cmd : List String)
    (ssl : Bool) (i : Nat) : List Event × Bool × Bool :=
  if isPull then
    if e.cfgFalseOk i then
      if e.cmdOk i then
        if e.cfgTrueOk i then
          ([Event.run cfgFalseCmd, Event.run cmd, Event.run cfgTrueCmd],
           true, true)
        else
          ([Event.run cfgFalseCmd, Event.run cmd, Event.run cfgTrueCmd],
           false, false)
      else ([Event.run cfgFalseCmd, Event.run cmd], false, false)
    else ([Event.run cfgFalseCmd], ssl, false)
  else ([Event.run cmd], ssl, e.cmdOk i)

/-- The retry loop of `git_command_with_retry`: attempt index `i`, `fuel`
attempts remaining out of `max_retries = 3`, `retry_delay = 5` seconds
between attempts.  On the last attempt's failure the degraded-acceptable
check runs `os.path.exists("supabase")` and
`os.path.exists(os.path.join("supabase", "docker"))` in the current working
directory; if both hold the function returns normally, else it re-raises.
(The `fuel = 0` case mirrors the loop falling through, which returns
`None`.) -/
def gitRetryGo (fs cwd : List String) (e : GitCallEnv) (isPull : Bool)
    (cmd : List String) : Bool → Nat → Nat → List Event × Bool × Outcome
  | ssl, _, 0 => ([], ssl, Outcome.ok)
  | ssl, i, fuel + 1 =>
    let a := gitAttempt e isPull cmd ssl i
    if a.2.2 then (a.1, a.2.1, Outcome.ok)
    else if fuel > 0 then
      let r := gitRetryGo fs cwd e isPull cmd a.2.1 (i + 1) fuel
      (a.1 ++ [Event.sleep 5] ++ r.1, r.2.1, r.2.2)
    else if pathExists fs cwd "supabase" &&
            pathExists fs cwd "supabase/docker" then
      (a.1, a.2.1, Outcome.ok)
    else (a.1, a.2.1, Outcome.raised "All retry attempts failed.")

/-- `git_command_with_retry(cmd)` with `max_retries = 3`. -/
def git_command_with_retry (fs cwd : List String) (e : GitCallEnv)
    (cmd : List String) (ssl : Bool) : List Event × Bool × Outcome :=
  gitRetryGo fs cwd e (isPullCmd cmd) cmd ssl 0 3

/-- Environment of one run of `clone_supabase_repo`: the file-system oracle
and the command outcomes of each potential `git_command_with_retry` call. -/
structure FetchEnv where
  fs : List String
  cloneCall : GitCallEnv
  sparseInitCall : GitCallEnv
  sparseSetCall : GitCallEnv
  checkoutCall : GitCallEnv
  pullCall : GitCallEnv

/-- Sequencing inside the fetcher, threading the `http.sslVerify` state. -/
def fetchSeq (a : List Event × Bool × Outcome)
    (k : Bool → List Event × Bool × Outcome) : List Event × Bool × Outcome :=
  match a with
  | (evs, ssl, Outcome.ok) =>
    ((evs ++ (k ssl).1), (k ssl).2.1, (k ssl).2.2)
  | x => x

/-- `clone_supabase_repo()`: if `supabase` does not exist, a narrowed clone
followed by `chdir`, sparse-checkout init/set, checkout of `master` and
`chdir("..")`; otherwise `chdir("supabase")`, `git pull` (with retry), and
`chdir("..")`.  Each `os.chdir` is an event; a propagating exception skips
the remaining steps (including the `chdir("..")`). -/
def clone_supabase_repo (e : FetchEnv) (ssl : Bool) :
    List Event × Bool × Outcome :=
  if pathExists e.fs [] "supabase" then
    fetchSeq ([Event.chdir "supabase"], ssl, Outcome.ok) fun ssl1 =>
    fetchSeq (git_command_with_retry e.fs ["supabase"] e.pullCall pullCmd ssl1)
      fun ssl2 => ([Event.chdir ".."], ssl2, Outcome.ok)
  else
    fetchSeq (git_command_with_retry e.fs [] e.cloneCall cloneCmd ssl) fun ssl1 =>
    fetchSeq ([Event.chdir "supabase"], ssl1, Outcome.ok) fun ssl2 =>
    fetchSeq
      (git_command_with_retry e.fs ["supabase"] e.sparseInitCall sparseInitCmd ssl2)
      fun ssl3 =>
    fetchSeq
      (git_command_with_retry e.fs ["supabase"] e.sparseSetCall sparseSetCmd ssl3)
      fun ssl4 =>
    fetchSeq
      (git_command_with_retry e.fs ["supabase"] e.checkoutCall checkoutCmd ssl4)
      fun ssl5 => ([Event.chdir ".."], ssl5, Outcome.ok)

/-- Outcomes and captured outputs of the external commands of one run of
`clean_docker_environment`: the compose down, the container enumeration
(`docker ps -aq`, with its stdout when it succeeds), per-container removal,
the network enumeration (`docker network ls`, with its stdout), per-network
removal, removal of the `localai_default` network, and the network prune. -/
structure CleanEnv where
  composeDownOk : Bool
  psOk : Bool
  psOut : String
  rmContainerOk : String → Bool
  netLsOk : Bool
  netLsOut : String
  rmNetworkOk : String → Bool
  rmDefaultOk : Bool
  pruneOk : Bool

def composeDownCmd : List String :=
  ["docker", "compose", "-p", "localai", "-f", "docker-compose.yml",
   "-f", "supabase/docker/docker-compose.yml", "down", "--remove-orphans"]

def psCmd : List String := ["docker", "ps", "-aq", "--filter", "name=localai"]

def netLsCmd : List String :=
  ["docker", "network", "ls", "--filter", "name=localai",
   "--format", "\x7b\x7b.ID\x7d\x7d"]

def pruneCmd : List String := ["docker", "network", "prune", "-f"]

/-- Python's `str.strip()`: drop leading and trailing whitespace. -/
def pyStrip (s : String) : String :=
  String.mk
    (((s.data.dropWhile Char.isWhitespace).reverse.dropWhile
        Char.isWhitespace).reverse)

/-- Split a character list on newline characters; like Python's
`str.split('\n')`, the result always has one more piece than there are
newlines (so the empty input yields one empty piece). -/
def splitCharsOnNL : List Char → List (List Char)
  | [] => [[]]
  | c :: rest =>
    match splitCharsOnNL rest with
    | [] => [[]]
    | line :: lines =>
      if c = '\n' then [] :: line :: lines else (c :: line) :: lines

/-- Python's `stdout.strip().split('\n')` (note `"".split('\n') == ['']`,
which the loops skip via the truthiness test `if container:`). -/
def stripSplitLines (s : String) : List String :=
  (splitCharsOnNL (pyStrip s).data).map String.mk

/-- The guarded per-container removal: `docker rm -f <id>` inside
`try/except Exception`, a failure only printing a warning. -/
def rmContainerStep (e : CleanEnv) (c : String) : List Event :=
  Event.run ["docker", "rm", "-f", c] ::
    (if e.rmContainerOk c then []
     else [Event.warn ("Warning: Could not remove container " ++ c)])

/-- The guarded container enumeration + removal block of
`clean_docker_environment`: list containers whose name matches `localai`;
on success remove each nonempty id individually; on failure print a
warning. -/
def containersBlock (e : CleanEnv) : List Event :=
  Event.run psCmd ::
    (if e.psOk then
      ((stripSplitLines e.psOut).filter (fun c => c ≠ "")).flatMap
        (rmContainerStep e)
     else [Event.warn "Warning: Error listing containers"])

/-- The guarded per-network removal: `docker network rm -f <id>` inside
`try/except Exception`. -/
def rmNetworkStep (e : CleanEnv) (n : String) : List Event :=
  Event.run ["docker", "network", "rm", "-f", n] ::
    (if e.rmNetworkOk n then []
     else [Event.warn ("Warning: Could not remove network " ++ n)])

/-- The guarded network enumeration + removal block of
`clean_docker_environment`. -/
def networksBlock (e : CleanEnv) : List Event :=
  Event.run netLsCmd ::
    (if e.netLsOk then
      ((stripSplitLines e.netLsOut).filter (fun n => n ≠ "")).flatMap
        (rmNetworkStep e)
     else [Event.warn "Warning: Error listing networks"])

/-- `remove_network(network_name)`: `docker network rm` with
`try/except CalledProcessError: pass`; on success it sleeps 2 seconds. -/
def remove_network (ok : Bool) (network_name : String) : List Event :=
  Event.run ["docker", "network", "rm", network_name] ::
    (if ok then [Event.sleep 2] else [])

/-- `clean_docker_environment()`: compose down (guarded), container
enumeration/removal (guarded), network enumeration/removal (guarded),
`remove_network("localai_default")` (guarded), then
`run_command(["docker", "network", "prune", "-f"])` — which is NOT inside a
`try`, so its failure raises out of the function — then sleeps of 10 and 3
seconds. -/
def clean_docker_environment (e : CleanEnv) : List Event × Outcome :=
  let down : List Event :=
    Event.run composeDownCmd ::
      (if e.composeDownOk then []
       else [Event.warn "Warning: Error during compose down"])
  let evs : List Event :=
    down ++ containersBlock e ++ networksBlock e ++
      remove_network e.rmDefaultOk "localai_default" ++ [Event.run pruneCmd]
  if e.pruneOk then (evs ++ [Event.sleep 10, Event.sleep 3], Outcome.ok)
  else (evs, Outcome.raised "docker network prune failed")

/-- `prepare_supabase_env()`: if `.env` is missing at the root, print an
error and `sys.exit(1)`; otherwise copy it to `supabase/docker/.env`. -/
def prepare_supabase_env (envFileExists : Bool) : List Event × Outcome :=
  if envFileExists then
    ([Event.copyFile ".env" "supabase/docker/.env"], Outcome.ok)
  else ([], Outcome.exited 1)

/-- Environment of one run of `start_supabase`: whether
`supabase/docker/docker-compose.yml` exists, the outcome of each `up -d`
attempt, and the cleanup environment of the `clean_docker_environment`
call made after failed attempt `i`. -/
structure SupaEnv where
  composeFileExists : Bool
  upOk : Nat → Bool
  cleanEnvs : Nat → CleanEnv

def supabaseUpCmd : List String :=
  ["docker", "compose", "-p", "localai", "-f",
   "supabase/docker/docker-compose.yml", "up", "-d"]

/-- The retry loop of `start_supabase`: up to `max_retries = 3` attempts; a
failed attempt that is not the last runs `clean_docker_environment()` (whose
own exception would propagate) and sleeps 5 seconds; the last failure raises
`Exception("Failed to start Supabase services after multiple attempts")`. -/
def startSupabaseGo (e : SupaEnv) : Nat → Nat → List Event × Outcome
  | _, 0 => ([], Outcome.ok)
  | i, fuel + 1 =>
    if e.upOk i then ([Event.run supabaseUpCmd], Outcome.ok)
    else if fuel > 0 then
      let c := clean_docker_environment (e.cleanEnvs i)
      if c.2 == Outcome.ok then
        let r := startSupabaseGo e (i + 1) fuel
        (Event.run supabaseUpCmd :: c.1 ++ [Event.sleep 5] ++ r.1, r.2)
      else (Event.run supabaseUpCmd :: c.1, c.2)
    else
      ([Event.run supabaseUpCmd],
       Outcome.raised "Failed to start Supabase services after multiple attempts")

/-- `start_supabase()`: raises `FileNotFoundError` if the compose file is
missing, then runs the retry loop. -/
def start_supabase (e : SupaEnv) : List Event × Outcome :=
  if e.composeFileExists then startSupabaseGo e 0 3
  else
    ([], Outcome.raised
      "Docker compose file not found: supabase/docker/docker-compose.yml")

/-- The command built by `start_local_ai`: the profile pair is inserted only
when the profile is truthy and not `"none"` (`if profile and profile != "none"`). -/
def localAiCmd (profile : Option String) : List String :=
  ["docker", "compose", "-p", "localai"] ++
    (match profile with
     | some p => if p ≠ "" && p ≠ "none" then ["--profile", p] else []
     | none => []) ++
    ["-f", "docker-compose.yml", "up", "-d"]

/-- The `while current_retry < max_retries` loop of `start_local_ai`: a
failed attempt that is not the last sleeps 10 seconds; the last failure
raises `Exception("Failed to start local AI services after multiple
attempts")`. -/
def startLocalAiGo (upOk : Nat → Bool) (cmd : List String) :
    Nat → Nat → List Event × Outcome
  | _, 0 => ([], Outcome.ok)
  | i, fuel + 1 =>
    if upOk i then ([Event.run cmd], Outcome.ok)
    else if fuel > 0 then
      let r := startLocalAiGo upOk cmd (i + 1) fuel
      (Event.run cmd :: Event.sleep 10 :: r.1, r.2)
    else
      ([Event.run cmd],
       Outcome.raised "Failed to start local AI services after multiple attempts")

/-- `start_local_ai(profile)` with `max_retries = 3`. -/
def start_local_ai (profile : Option String) (upOk : Nat → Bool) :
    List Event × Outcome :=
  startLocalAiGo upOk (localAiCmd profile) 0 3

/-- Outcomes of the three version queries of `check_prerequisites`
(`CalledProcessError` and `FileNotFoundError` both lead to `sys.exit(1)`,
so one oracle per tool suffices). -/
structure PrereqEnv where
  dockerOk : Bool
  composeOk : Bool
  gitOk : Bool

def dockerVersionCmd : List String := ["docker", "--version"]

def composeVersionCmd : List String := ["docker", "compose", "version"]

def gitVersionCmd : List String := ["git", "--version"]

/-- `check_prerequisites()`: the three version queries in one `try`; the
first failure aborts the remaining queries and exits with status 1.  No
query is ever retried. -/
def check_prerequisites (e : PrereqEnv) : List Event × Outcome :=
  if e.dockerOk then
    if e.composeOk then
      if e.gitOk then
        ([Event.run dockerVersionCmd, Event.run composeVersionCmd,
          Event.run gitVersionCmd], Outcome.ok)
      else
        ([Event.run dockerVersionCmd, Event.run composeVersionCmd,
          Event.run gitVersionCmd], Outcome.exited 1)
    else
      ([Event.run dockerVersionCmd, Event.run composeVersionCmd],
       Outcome.exited 1)
  else ([Event.run dockerVersionCmd], Outcome.exited 1)

/-- The accepted `--profile` values (`choices` of the argument parser). -/
def profileChoices : List String := ["cpu", "gpu-nvidia", "gpu-amd", "none"]

/-- The fixed endpoint summary printed on full success. -/
def endpointPrints : List Event :=
  [Event.printLn "\nAll services started successfully!",
   Event.printLn "You can access:",
   Event.printLn "- n8n at: http://localhost:5678",
   Event.printLn "- Open WebUI at: http://localhost:3000",
   Event.printLn "- Supabase Studio at: http://localhost:8000",
   Event.printLn "- Flowise at: http://localhost:3001",
   Event.printLn "- Qdrant Dashboard at: http://localhost:6333"]

/-- Environment of one run of `main`: oracles for every stage.  The
file-existence oracles of the later stages (`envFileExists`,
`supa.composeFileExists`) are sampled at the moment of their respective
`os.path.exists` calls, so they account for files the earlier stages
created. -/
structure MainEnv where
  prereq : PrereqEnv
  fetch : FetchEnv
  envFileExists : Bool
  mainClean : CleanEnv
  supa : SupaEnv
  localUpOk : Nat → Bool

/-- The `try` block of `main`: prerequisites, fetch, env preparation, full
cleanup, dependency stack, 15-second cooldown, primary stack, endpoint
summary.  `ssl` is the `http.sslVerify` state on entry. -/
def mainBody (e : MainEnv) (profile : String) (ssl : Bool) :
    List Event × Outcome :=
  seqO (check_prerequisites e.prereq) fun _ =>
  seqO ((clone_supabase_repo e.fetch ssl).1,
        (clone_supabase_repo e.fetch ssl).2.2) fun _ =>
  seqO (prepare_supabase_env e.envFileExists) fun _ =>
  seqO (clean_docker_environment e.mainClean) fun _ =>
  seqO (start_supabase e.supa) fun _ =>
  seqO ([Event.sleep 15], Outcome.ok) fun _ =>
  seqO (start_local_ai (some profile) e.localUpOk) fun _ =>
  (endpointPrints, Outcome.ok)

/-- `main()` as the whole process: the argument parser rejects a `--profile`
value outside `choices` by printing a usage message and exiting with status
2 before anything else runs (documented `argparse` behaviour); then the
`try` block runs, `except Exception` converts a propagating exception into
`sys.exit(1)`, a `SystemExit` passes through, and normal completion exits
with status 0.  Returns the events and the process exit status. -/
def mainRun (e : MainEnv) (profileArg : String) (ssl : Bool) :
    List Event × Nat :=
  if profileArg ∈ profileChoices then
    match mainBody e profileArg ssl with
    | (evs, Outcome.ok) => (evs, 0)
    | (evs, Outcome.raised _) => (evs, 1)
    | (evs, Outcome.exited c) => (evs, c)
  else ([], 2)

/-- Number of occurrences of an event in a trace. -/
def countEv (ev : Event) (evs : List Event) : Nat :=
  (evs.filter (fun x => x == ev)).length

/-- `min(attempts_until_success, 3)`: the number of launch invocations a
3-attempt retry loop makes when attempt `i` (0-based) is the oracle `f i`. -/
def cappedAttempts (f : Nat → Bool) : Nat :=
  if f 0 then 1 else if f 1 then 2 else 3

/-- An invocation of the container-orchestration tool (argv head `docker`). -/
def isDockerEv : Event → Bool
  | Event.run args => args.head? == some "docker"
  | _ => false

/-- An invocation of the version-control tool (argv head `git`). -/
def isGitEv : Event → Bool
  | Event.run args => args.head? == some "git"
  | _ => false

/-- One of the three prerequisite version queries. -/
def isVersionQueryEv (ev : Event) : Bool :=
  ev == Event.run dockerVersionCmd || ev == Event.run composeVersionCmd ||
    ev == Event.run gitVersionCmd

/-- A container-orchestration command other than a version query. -/
def isOrchestrationEv (ev : Event) : Bool :=
  isDockerEv ev && !isVersionQueryEv ev

/-- A repository-fetch step: a git invocation other than a version query. -/
def isFetchStepEv (ev : Event) : Bool :=
  isGitEv ev && !isVersionQueryEv ev

/-- A stack-launch invocation: a docker command whose argv contains `up`. -/
def isUpEv : Event → Bool
  | Event.run args => args.head? == some "docker" && args.contains "up"
  | _ => false

/-- A git-call oracle on which every command succeeds. -/
def allOkGit : GitCallEnv :=
  { cfgFalseOk := fun _ => true, cmdOk := fun _ => true,
    cfgTrueOk := fun _ => true }

/-- A git-call oracle on which the main command fails on every attempt while
both `git config` toggles succeed. -/
def allFailPullGit : GitCallEnv :=
  { cfgFalseOk := fun _ => true, cmdOk := fun _ => false,
    cfgTrueOk := fun _ => true }

/-- A cleanup oracle on which every command succeeds and both enumerations
return empty output. -/
def allOkClean : CleanEnv :=
  { composeDownOk := true, psOk := true, psOut := "",
    rmContainerOk := fun _ => true, netLsOk := true, netLsOut := "",
    rmNetworkOk := fun _ => true, rmDefaultOk := true, pruneOk := true }

/-- The fetch environment of a machine with no prior `supabase` directory on
which every git command succeeds. -/
def fetchNoRepoAllOk : FetchEnv :=
  { fs := [], cloneCall := allOkGit, sparseInitCall := allOkGit,
    sparseSetCall := allOkGit, checkoutCall := allOkGit, pullCall := allOkGit }

/-- The fetch environment of a machine with a prior checkout: `supabase` and
`supabase/docker` exist relative to the script root, and every `git pull`
attempt fails. -/
def stalePullFetch : FetchEnv :=
  { fs := ["supabase", "supabase/docker"], cloneCall := allOkGit,
    sparseInitCall := allOkGit, sparseSetCall := allOkGit,
    checkoutCall := allOkGit, pullCall := allFailPullGit }

/-- A fetch environment where only `supabase` exists at the root and every
pull attempt fails. -/
def sslLeakFetch : FetchEnv :=
  { fs := ["supabase"], cloneCall := allOkGit, sparseInitCall := allOkGit,
    sparseSetCall := allOkGit, checkoutCall := allOkGit,
    pullCall := allFailPullGit }

/-- A fetch environment whose degraded-acceptable existence check passes as
the code performs it: the paths `supabase/supabase` and
`supabase/supabase/docker` (relative to the script root) exist, because the
check runs after `os.chdir("supabase")`. -/
def nestedDirsFetch : FetchEnv :=
  { fs := ["supabase", "supabase/supabase", "supabase/supabase/docker"],
    cloneCall := allOkGit, sparseInitCall := allOkGit,
    sparseSetCall := allOkGit, checkoutCall := allOkGit,
    pullCall := allFailPullGit }

def allOkPrereq : PrereqEnv :=
  { dockerOk := true, composeOk := true, gitOk := true }

/-- A dependency-stack environment on which every attempt succeeds. -/
def allOkSupa : SupaEnv :=
  { composeFileExists := true, upOk := fun _ => true,
    cleanEnvs := fun _ => allOkClean }

/-- A dependency-stack environment on which every attempt fails and every
interleaved cleanup succeeds. -/
def allFailSupa : SupaEnv :=
  { composeFileExists := true, upOk := fun _ => false,
    cleanEnvs := fun _ => allOkClean }

/-- The environment of a fully successful run on a machine with no prior
`supabase` directory. -/
def allOkMainEnv : MainEnv :=
  { prereq := allOkPrereq, fetch := fetchNoRepoAllOk, envFileExists := true,
    mainClean := allOkClean, supa := allOkSupa, localUpOk := fun _ => true }

/-- A cleanup oracle on which only the final network prune fails. -/
def pruneFailClean : CleanEnv :=
  { allOkClean with pruneOk := false }

def noDockerPrereq : PrereqEnv :=
  { dockerOk := false, composeOk := true, gitOk := true }

/-- A fully successful environment except that the prerequisite check for
the container tool fails. -/
def noDockerMainEnv : MainEnv :=
  { allOkMainEnv with prereq := noDockerPrereq }

/-- A fully successful environment except that `.env` is missing. -/
def noEnvFileMainEnv : MainEnv :=
  { allOkMainEnv with envFileExists := false }

/-- The full expected effect sequence of a successful `--profile gpu-nvidia`
run on a machine with no prior `supabase` directory. -/
def gpuNvidiaRunTrace : List Event :=
  [Event.run ["docker", "--version"],
   Event.run ["docker", "compose", "version"],
   Event.run ["git", "--version"],
   Event.run ["git", "clone", "--filter=blob:none", "--no-checkout",
              "https://github.com/supabase/supabase.git"],
   Event.chdir "supabase",
   Event.run ["git", "sparse-checkout", "init", "--cone"],
   Event.run ["git", "sparse-checkout", "set", "docker"],
   Event.run ["git", "checkout", "master"],
   Event.chdir "..",
   Event.copyFile ".env" "supabase/docker/.env",
   Event.run ["docker", "compose", "-p", "localai", "-f", "docker-compose.yml",
              "-f", "supabase/docker/docker-compose.yml", "down",
              "--remove-orphans"],
   Event.run ["docker", "ps", "-aq", "--filter", "name=localai"],
   Event.run ["docker", "network", "ls", "--filter", "name=localai",
              "--format", "\x7b\x7b.ID\x7d\x7d"],
   Event.run ["docker", "network", "rm", "localai_default"],
   Event.sleep 2,
   Event.run ["docker", "network", "prune", "-f"],
   Event.sleep 10,
   Event.sleep 3,
   Event.run ["docker", "compose", "-p", "localai", "-f",
              "supabase/docker/docker-compose.yml", "up", "-d"],
   Event.sleep 15,
   Event.run ["docker", "compose", "-p", "localai", "--profile", "gpu-nvidia",
              "-f", "docker-compose.yml", "up", "-d"],
   Event.printLn "\nAll services started successfully!",
   Event.printLn "You can access:",
   Event.printLn "- n8n at: http://localhost:5678",
   Event.printLn "- Open WebUI at: http://localhost:3000",
   Event.printLn "- Supabase Studio at: http://localhost:8000",
   Event.printLn "- Flowise at: http://localhost:3001",
   Event.printLn "- Qdrant Dashboard at: http://localhost:6333"]

theorem seqO_okL (evs : List Event) (k : Unit → List Event × Outcome) :
    seqO (evs, Outcome.ok) k = (evs ++ (k ()).1, (k ()).2) := rfl

theorem seqO_raisedL (evs : List Event) (m : String)
    (k : Unit → List Event × Outcome) :
    seqO (evs, Outcome.raised m) k = (evs, Outcome.raised m) := rfl

theorem seqO_exitedL (evs : List Event) (c : Nat)
    (k : Unit → List Event × Outcome) :
    seqO (evs, Outcome.exited c) k = (evs, Outcome.exited c) := rfl

/-- Every event of a `fetchSeq` chain comes from one of the two sides. -/
theorem fetchSeq_forall {P : Event → Prop} (a : List Event × Bool × Outcome)
    (k : Bool → List Event × Bool × Outcome)
    (ha : ∀ ev ∈ a.1, P ev) (hk : ∀ s, ∀ ev ∈ (k s).1, P ev) :
    ∀ ev ∈ (fetchSeq a k).1, P ev := by
  rcases a with ⟨evs, sl, o⟩
  cases o with
  | ok =>
    intro ev hev
    simp only [fetchSeq, List.mem_append] at hev
    rcases hev with h | h
    · exact ha ev (by simpa using h)
    · exact hk sl ev h
  | raised m => exact ha
  | exited c => exact ha

/-- A `fetchSeq` chain never produces a `SystemExit` its sides cannot. -/
theorem fetchSeq_noexit (a : List Event × Bool × Outcome)
    (k : Bool → List Event × Bool × Outcome)
    (ha : ∀ c, a.2.2 ≠ Outcome.exited c)
    (hk : ∀ s c, (k s).2.2 ≠ Outcome.exited c) :
    ∀ c, (fetchSeq a k).2.2 ≠ Outcome.exited c := by
  rcases a with ⟨evs, sl, o⟩
  cases o with
  | ok => exact fun c => hk sl c
  | raised m => exact ha
  | exited c => exact ha

/-- The final `http.sslVerify` state of a `fetchSeq` chain whose first part
leaves it at `s` and whose continuation preserves its input. -/
theorem fetchSeq_ssl (a : List Event × Bool × Outcome)
    (k : Bool → List Event × Bool × Outcome) (s : Bool)
    (ha : a.2.1 = s) (hk : ∀ s', (k s').2.1 = s') :
    (fetchSeq a k).2.1 = s := by
  rcases a with ⟨evs, sl, o⟩
  cases o with
  | ok => simpa [fetchSeq] using (hk sl).trans (by simpa using ha)
  | raised m => simpa [fetchSeq] using ha
  | exited c => simpa [fetchSeq] using ha

/-- Events of one retry-loop iteration body. -/
theorem gitAttempt_events (e : GitCallEnv) (isPull : Bool) (cmd : List String)
    (ssl : Bool) (i : Nat) :
    ∀ ev ∈ (gitAttempt e isPull cmd ssl i).1,
      ev = Event.run cmd ∨ ev = Event.run cfgFalseCmd ∨
        ev = Event.run cfgTrueCmd := by
  intro ev hev
  unfold gitAttempt at hev
  split_ifs at hev <;> simp at hev <;> tauto


/-- Events of the whole retry loop: the command itself, the two `git config`
toggles, and the 5-second retry delay. -/
theorem gitRetryGo_events (fs cwd : List String) (e : GitCallEnv)
    (isPull : Bool) (cmd : List String) :
    ∀ fuel ssl i, ∀ ev ∈ (gitRetryGo fs cwd e isPull cmd ssl i fuel).1,
      ev = Event.sleep 5 ∨ ev = Event.run cmd ∨ ev = Event.run cfgFalseCmd ∨
        ev = Event.run cfgTrueCmd := by
  intro fuel
  induction fuel with
  | zero => intro ssl i ev hev; simp [gitRetryGo] at hev
  | succ n ih =>
    intro ssl i ev hev
    rcases hA : gitAttempt e isPull cmd ssl i with ⟨evs, ssl2, b⟩
    have hevs := gitAttempt_events e isPull cmd ssl i
    rw [hA] at hevs
    simp only [gitRetryGo, hA] at hev
    cases b with
    | true =>
      simp at hev
      exact Or.inr (hevs ev hev)
    | false =>
      by_cases hn : n > 0
      · simp [hn] at hev
        rcases hev with h | h | h
        · exact Or.inr (hevs ev h)
        · subst h; exact Or.inl rfl
        · exact ih ssl2 (i + 1) ev h
      · simp [hn] at hev
        split at hev <;> (simp at hev; exact Or.inr (hevs ev hev))

/-- The retry loop never raises `SystemExit`. -/
theorem gitRetryGo_noexit (fs cwd : List String) (e : GitCallEnv)
    (isPull : Bool) (cmd : List String) :
    ∀ fuel ssl i c,
      (gitRetryGo fs cwd e isPull cmd ssl i fuel).2.2 ≠ Outcome.exited c := by
  intro fuel
  induction fuel with
  | zero => intro ssl i c; simp [gitRetryGo]
  | succ n ih =>
    intro ssl i c
    rcases hA : gitAttempt e isPull cmd ssl i with ⟨evs, ssl2, b⟩
    simp only [gitRetryGo, hA]
    cases b with
    | true => simp
    | false =>
      by_cases hn : n > 0
      · simpa [hn] using ih ssl2 (i + 1) c
      · simp [hn]
        split <;> simp

/-- When the command is not a pull, the retry loop never touches the
`http.sslVerify` state. -/
theorem gitRetryGo_ssl_nonpull (fs cwd : List String) (e : GitCallEnv)
    (cmd : List String) :
    ∀ fuel ssl i,
      (gitRetryGo fs cwd e false cmd ssl i fuel).2.1 = ssl := by
  intro fuel
  induction fuel with
  | zero => intro ssl i; simp [gitRetryGo]
  | succ n ih =>
    intro ssl i
    simp only [gitRetryGo, gitAttempt]
    cases hb : e.cmdOk i with
    | true => simp [hb]
    | false =>
      by_cases hn : n > 0
      · simpa [hb, hn] using ih ssl (i + 1)
      · simp [hb, hn]
        split <;> simp

/-- The retry wrapper around a non-pull command preserves `http.sslVerify`. -/
theorem git_command_with_retry_ssl_nonpull (fs cwd : List String)
    (call : GitCallEnv) (cmd : List String) (ssl : Bool)
    (h : isPullCmd cmd = false) :
    (git_command_with_retry fs cwd call cmd ssl).2.1 = ssl := by
  unfold git_command_with_retry
  rw [h]
  exact gitRetryGo_ssl_nonpull fs cwd call cmd 3 ssl 0

/-- No event of a retry wrapper around a git-headed command is a docker
invocation. -/
theorem git_command_with_retry_no_docker (fs cwd : List String)
    (call : GitCallEnv) (cmd : List String) (ssl : Bool)
    (h : cmd.head? = some "git") :
    ∀ ev ∈ (git_command_with_retry fs cwd call cmd ssl).1,
      isDockerEv ev = false := by
  intro ev hev
  rcases gitRetryGo_events fs cwd call (isPullCmd cmd) cmd 3 ssl 0 ev hev with
    h1 | h1 | h1 | h1 <;> subst h1 <;> simp [isDockerEv, h] <;> decide

/-- The retry wrapper never raises `SystemExit`. -/
theorem git_command_with_retry_noexit (fs cwd : List String)
    (call : GitCallEnv) (cmd : List String) (ssl : Bool) :
    ∀ c, (git_command_with_retry fs cwd call cmd ssl).2.2 ≠
      Outcome.exited c := by
  intro c
  exact gitRetryGo_noexit fs cwd call (isPullCmd cmd) cmd 3 ssl 0 c

/-- No event of the repository fetcher is a docker invocation. -/
theorem clone_supabase_repo_no_docker (e : FetchEnv) (ssl : Bool) :
    ∀ ev ∈ (clone_supabase_repo e ssl).1, isDockerEv ev = false := by
  unfold clone_supabase_repo
  by_cases hs : pathExists e.fs [] "supabase" = true
  · rw [if_pos hs]
    refine fetchSeq_forall _ _ ?_ ?_
    · intro ev hev; simp at hev; subst hev; rfl
    · intro s
      refine fetchSeq_forall _ _ ?_ ?_
      · exact git_command_with_retry_no_docker e.fs ["supabase"] e.pullCall
          pullCmd s rfl
      · intro s' ev hev; simp at hev; subst hev; rfl
  · rw [if_neg hs]
    refine fetchSeq_forall _ _ ?_ ?_
    · exact git_command_with_retry_no_docker e.fs [] e.cloneCall cloneCmd ssl rfl
    · intro s1
      refine fetchSeq_forall _ _ ?_ ?_
      · intro ev hev; simp at hev; subst hev; rfl
      · intro s2
        refine fetchSeq_forall _ _ ?_ ?_
        · exact git_command_with_retry_no_docker e.fs ["supabase"]
            e.sparseInitCall sparseInitCmd s2 rfl
        · intro s3
          refine fetchSeq_forall _ _ ?_ ?_
          · exact git_command_with_retry_no_docker e.fs ["supabase"]
              e.sparseSetCall sparseSetCmd s3 rfl
          · intro s4
            refine fetchSeq_forall _ _ ?_ ?_
            · exact git_command_with_retry_no_docker e.fs ["supabase"]
                e.checkoutCall checkoutCmd s4 rfl
            · intro s5 ev hev; simp at hev; subst hev; rfl

/-- The repository fetcher never raises `SystemExit`. -/
theorem clone_supabase_repo_noexit (e : FetchEnv) (ssl : Bool) :
    ∀ c, (clone_supabase_repo e ssl).2.2 ≠ Outcome.exited c := by
  unfold clone_supabase_repo
  by_cases hs : pathExists e.fs [] "supabase" = true
  · rw [if_pos hs]
    refine fetchSeq_noexit _ _ (by simp) ?_
    intro s
    refine fetchSeq_noexit _ _ ?_ (by simp)
    exact git_command_with_retry_noexit e.fs ["supabase"] e.pullCall pullCmd s
  · rw [if_neg hs]
    refine fetchSeq_noexit _ _
      (git_command_with_retry_noexit e.fs [] e.cloneCall cloneCmd ssl) ?_
    intro s1
    refine fetchSeq_noexit _ _ (by simp) ?_
    intro s2
    refine fetchSeq_noexit _ _
      (git_command_with_retry_noexit e.fs ["supabase"] e.sparseInitCall
        sparseInitCmd s2) ?_
    intro s3
    refine fetchSeq_noexit _ _
      (git_command_with_retry_noexit e.fs ["supabase"] e.sparseSetCall
        sparseSetCmd s3) ?_
    intro s4
    refine fetchSeq_noexit _ _
      (git_command_with_retry_noexit e.fs ["supabase"] e.checkoutCall
        checkoutCmd s4) ?_
    intro s5
    simp

/-- Final `http.sslVerify` state of the pull retry wrapper when both config
toggles always succeed: enabled exactly when some pull attempt succeeded. -/
theorem git_pull_retry_ssl (fs cwd : List String) (call : GitCallEnv)
    (ssl : Bool) (hcf : ∀ i, call.cfgFalseOk i = true)
    (hct : ∀ i, call.cfgTrueOk i = true) :
    (git_command_with_retry fs cwd call pullCmd ssl).2.1 =
      (call.cmdOk 0 || call.cmdOk 1 || call.cmdOk 2) := by
  unfold git_command_with_retry
  rw [show isPullCmd pullCmd = true from rfl]
  cases h0 : call.cmdOk 0 with
  | true => simp [gitRetryGo, gitAttempt, h0, hcf 0, hct 0]
  | false =>
    cases h1 : call.cmdOk 1 with
    | true => simp [gitRetryGo, gitAttempt, h0, h1, hcf 0, hcf 1, hct 1]
    | false =>
      cases h2 : call.cmdOk 2 with
      | true =>
        simp [gitRetryGo, gitAttempt, h0, h1, h2, hcf 0, hcf 1, hcf 2, hct 2]
      | false =>
        simp only [gitRetryGo, gitAttempt, h0, h1, h2, hcf 0, hcf 1, hcf 2,
          hct 0, hct 1, hct 2]
        simp
        split <;> rfl

/-- The continuation `fun s => (l, s, ok)` (a trailing `os.chdir`) preserves
the `http.sslVerify` state of the step before it. -/
theorem fetchSeq_ssl_id (a : List Event × Bool × Outcome) (l : List Event) :
    (fetchSeq a (fun s => (l, s, Outcome.ok))).2.1 = a.2.1 := by
  rcases a with ⟨evs, sl, o⟩
  cases o <;> rfl

theorem fetchSeq_okL (l : List Event) (s : Bool)
    (k : Bool → List Event × Bool × Outcome) :
    fetchSeq (l, s, Outcome.ok) k = (l ++ (k s).1, (k s).2.1, (k s).2.2) := rfl

/-- On the clone path (no prior checkout) the fetcher leaves `http.sslVerify`
exactly as it found it, whatever the command outcomes. -/
theorem clone_path_ssl (e : FetchEnv) (ssl : Bool)
    (hs : pathExists e.fs [] "supabase" = false) :
    (clone_supabase_repo e ssl).2.1 = ssl := by
  unfold clone_supabase_repo
  rw [if_neg (by simp [hs])]
  refine fetchSeq_ssl _ _ ssl
    (git_command_with_retry_ssl_nonpull e.fs [] e.cloneCall cloneCmd ssl rfl) ?_
  intro s1
  refine fetchSeq_ssl _ _ s1 rfl ?_
  intro s2
  refine fetchSeq_ssl _ _ s2
    (git_command_with_retry_ssl_nonpull e.fs ["supabase"] e.sparseInitCall
      sparseInitCmd s2 rfl) ?_
  intro s3
  refine fetchSeq_ssl _ _ s3
    (git_command_with_retry_ssl_nonpull e.fs ["supabase"] e.sparseSetCall
      sparseSetCmd s3 rfl) ?_
  intro s4
  refine fetchSeq_ssl _ _ s4
    (git_command_with_retry_ssl_nonpull e.fs ["supabase"] e.checkoutCall
      checkoutCmd s4 rfl) ?_
  intro s5
  rfl

/-- On the update path the fetcher's final `http.sslVerify` state is the
pull retry wrapper's final state. -/
theorem pull_path_ssl (e : FetchEnv) (ssl : Bool)
    (hs : pathExists e.fs [] "supabase" = true)
    (hcf : ∀ i, e.pullCall.cfgFalseOk i = true)
    (hct : ∀ i, e.pullCall.cfgTrueOk i = true) :
    (clone_supabase_repo e ssl).2.1 =
      (e.pullCall.cmdOk 0 || e.pullCall.cmdOk 1 || e.pullCall.cmdOk 2) := by
  unfold clone_supabase_repo
  rw [if_pos hs, fetchSeq_okL]
  dsimp only
  rw [fetchSeq_ssl_id]
  exact git_pull_retry_ssl e.fs ["supabase"] e.pullCall ssl hcf hct

/-- C1: the claim says that when every `git pull` retry fails but the
`supabase` directory with its `docker` subdirectory exists on disk, the
fetcher returns success and the procedure proceeds.  The code instead
evaluates the existence check after `os.chdir("supabase")`, so it tests
`supabase/supabase` and `supabase/supabase/docker` relative to the script
root: on the stated input (root has `supabase` and `supabase/docker`, every
pull attempt fails) the fetcher raises, and the degraded path triggers only
when the checkout itself contains a nested `supabase/docker`. -/
theorem claim1_degraded_update_check_divergence :
    pathExists stalePullFetch.fs [] "supabase" = true ∧
    pathExists stalePullFetch.fs [] "supabase/docker" = true ∧
    (∀ i, stalePullFetch.pullCall.cmdOk i = false) ∧
    (clone_supabase_repo stalePullFetch true).2.2 =
      Outcome.raised "All retry attempts failed." ∧
    resolvePath ["supabase"] "supabase" = "supabase/supabase" ∧
    pathExists stalePullFetch.fs ["supabase"] "supabase" = false ∧
    (clone_supabase_repo nestedDirsFetch true).2.2 = Outcome.ok :=
  ⟨by decide, by decide, fun i => rfl, by decide, by decide, by decide,
   by decide⟩

/-- C2 counterexample: the claim says every cleanup sub-step is
independently guarded so no failure raises out of the cleanup; but a failing
final network prune makes `clean_docker_environment` raise. -/
theorem claim2_counterexample :
    (clean_docker_environment pruneFailClean).2 =
      Outcome.raised "docker network prune failed" ∧
    Event.run pruneCmd ∈ (clean_docker_environment pruneFailClean).1 := by
  decide

/-- C2 (amended): the compose-down, container enumeration/removal, network
enumeration/removal and default-network removal sub-steps are each
independently guarded — whatever fails, every later sub-step is still
reached — but the final network prune is not guarded: the cleanup completes
normally exactly when the prune succeeds, and raises otherwise. -/
theorem claim2_cleanup_guards (e : CleanEnv) :
    (clean_docker_environment e).2 =
      (if e.pruneOk then Outcome.ok
       else Outcome.raised "docker network prune failed") ∧
    Event.run composeDownCmd ∈ (clean_docker_environment e).1 ∧
    Event.run psCmd ∈ (clean_docker_environment e).1 ∧
    Event.run netLsCmd ∈ (clean_docker_environment e).1 ∧
    Event.run ["docker", "network", "rm", "localai_default"] ∈
      (clean_docker_environment e).1 ∧
    Event.run pruneCmd ∈ (clean_docker_environment e).1 := by
  refine ⟨?_, ?_, ?_, ?_, ?_, ?_⟩ <;>
    unfold clean_docker_environment <;>
    cases hp : e.pruneOk <;>
    simp [hp, containersBlock, networksBlock, remove_network]

/-- C4 counterexample: the claim says that on every execution path through
the fetcher the final `http.sslVerify` value equals its pre-call value
(enabled).  Starting enabled, when every pull attempt fails the setting is
left disabled — both on the raising path and on the degraded-success
path. -/
theorem claim4_counterexample :
    (clone_supabase_repo sslLeakFetch true).2.1 = false ∧
    (clone_supabase_repo sslLeakFetch true).2.2 =
      Outcome.raised "All retry attempts failed." ∧
    (clone_supabase_repo nestedDirsFetch true).2.1 = false ∧
    (clone_supabase_repo nestedDirsFetch true).2.2 = Outcome.ok := by
  decide

/-- C4 (amended): certificate verification is never touched around the
initial clone / sparse-checkout / checkout path, and around the update it is
restored to enabled only when some pull attempt succeeds: when both config
toggles always succeed, the fetcher's final `http.sslVerify` state equals
the disjunction of the three pull-attempt outcomes — in particular it stays
disabled when every pull attempt fails. -/
theorem claim4_ssl_toggle (e : FetchEnv) (ssl : Bool) :
    (pathExists e.fs [] "supabase" = false →
      (clone_supabase_repo e ssl).2.1 = ssl) ∧
    (pathExists e.fs [] "supabase" = true →
      (∀ i, e.pullCall.cfgFalseOk i = true) →
      (∀ i, e.pullCall.cfgTrueOk i = true) →
      (clone_supabase_repo e ssl).2.1 =
        (e.pullCall.cmdOk 0 || e.pullCall.cmdOk 1 || e.pullCall.cmdOk 2)) := by
  constructor
  · intro hs
    exact clone_path_ssl e ssl hs
  · intro hs hcf hct
    exact pull_path_ssl e ssl hs hcf hct

/-- C4 witness: at the concrete stale-checkout environment where every pull
attempt fails, the amended theorem evaluates to a disabled final state. -/
theorem claim4_witness :
    (clone_supabase_repo stalePullFetch true).2.1 = false := by
  have h := (claim4_ssl_toggle stalePullFetch true).2 (by decide)
    (fun i => rfl) (fun i => rfl)
  simpa using h

/-- C5: invoking with profile `gpu-nvidia` on a machine with no prior
`supabase` directory performs, in exactly this order: the three tool version
checks, the narrowed clone with sparse-checkout of `docker`, checkout of
`master`, the copy of the root `.env` to `supabase/docker/.env`, the full
reclaim sequence, the dependency-stack launch, the 15-second sleep, the
primary-stack launch with `--profile gpu-nvidia`, the fixed endpoint
summary — and exits 0. -/
theorem claim5_end_to_end_gpu_nvidia :
    mainRun allOkMainEnv "gpu-nvidia" true = (gpuNvidiaRunTrace, 0) := by
  rfl

/-- C9: when every cleanup command succeeds and both enumerations return
empty output, the Environment Reclaimer completes normally, its trace is
exactly the five sub-step commands plus sleeps, and no removal is attempted
on an empty name. -/
theorem claim9_empty_enumerations (e : CleanEnv)
    (h1 : e.composeDownOk = true) (h2 : e.psOk = true) (h3 : e.psOut = "")
    (h4 : e.netLsOk = true) (h5 : e.netLsOut = "") (h6 : e.rmDefaultOk = true)
    (h7 : e.pruneOk = true) :
    (clean_docker_environment e).2 = Outcome.ok ∧
    (clean_docker_environment e).1 =
      [Event.run composeDownCmd, Event.run psCmd, Event.run netLsCmd,
       Event.run ["docker", "network", "rm", "localai_default"],
       Event.sleep 2, Event.run pruneCmd, Event.sleep 10, Event.sleep 3] ∧
    Event.run ["docker", "rm", "-f", ""] ∉ (clean_docker_environment e).1 ∧
    Event.run ["docker", "network", "rm", "-f", ""] ∉
      (clean_docker_environment e).1 := by
  obtain ⟨cdo, pso, psout, rmc, nlo, nlout, rmn, rmd, pro⟩ := e
  simp only at h1 h2 h3 h4 h5 h6 h7
  subst h1 h2 h3 h4 h5 h6 h7
  refine ⟨rfl, rfl, ?_, ?_⟩
  · exact (by decide :
      Event.run ["docker", "rm", "-f", ""] ∉
        [Event.run composeDownCmd, Event.run psCmd, Event.run netLsCmd,
         Event.run ["docker", "network", "rm", "localai_default"],
         Event.sleep 2, Event.run pruneCmd, Event.sleep 10, Event.sleep 3])
  · exact (by decide :
      Event.run ["docker", "network", "rm", "-f", ""] ∉
        [Event.run composeDownCmd, Event.run psCmd, Event.run netLsCmd,
         Event.run ["docker", "network", "rm", "localai_default"],
         Event.sleep 2, Event.run pruneCmd, Event.sleep 10, Event.sleep 3])

/-- C9 witness: the theorem at the concrete all-success empty-output
cleanup environment. -/
theorem claim9_witness :
    (clean_docker_environment allOkClean).2 = Outcome.ok ∧
    (clean_docker_environment allOkClean).1 =
      [Event.run composeDownCmd, Event.run psCmd, Event.run netLsCmd,
       Event.run ["docker", "network", "rm", "localai_default"],
       Event.sleep 2, Event.run pruneCmd, Event.sleep 10, Event.sleep 3] ∧
    Event.run ["docker", "rm", "-f", ""] ∉
      (clean_docker_environment allOkClean).1 ∧
    Event.run ["docker", "network", "rm", "-f", ""] ∉
      (clean_docker_environment allOkClean).1 :=
  claim9_empty_enumerations allOkClean rfl rfl rfl rfl rfl rfl rfl

/-- C10: with profile `none` the primary-stack command carries no profile
flag (likewise when the profile is absent), for every other accepted profile
`p` the command is exactly the base, then the pair `--profile p`, then the
compose-file arguments, and the dependency-stack command never carries a
profile flag. -/
theorem claim10_profile_flag (p : String) (hp : p ∈ profileChoices)
    (hn : p ≠ "none") :
    localAiCmd (some p) =
      ["docker", "compose", "-p", "localai", "--profile", p,
       "-f", "docker-compose.yml", "up", "-d"] ∧
    "--profile" ∉ localAiCmd (some "none") ∧
    "--profile" ∉ localAiCmd none ∧
    "--profile" ∉ supabaseUpCmd := by
  refine ⟨?_, by decide, by decide, by decide⟩
  simp [profileChoices] at hp
  rcases hp with rfl | rfl | rfl | rfl
  · rfl
  · rfl
  · rfl
  · exact absurd rfl hn

/-- C10 witness: the theorem at the concrete profile `gpu-nvidia`. -/
theorem claim10_witness :
    localAiCmd (some "gpu-nvidia") =
      ["docker", "compose", "-p", "localai", "--profile", "gpu-nvidia",
       "-f", "docker-compose.yml", "up", "-d"] ∧
    "--profile" ∉ localAiCmd (some "none") ∧
    "--profile" ∉ localAiCmd none ∧
    "--profile" ∉ supabaseUpCmd :=
  claim10_profile_flag "gpu-nvidia" (by decide) (by decide)

theorem countEv_nil (ev : Event) : countEv ev [] = 0 := rfl

theorem countEv_append (ev : Event) (l1 l2 : List Event) :
    countEv ev (l1 ++ l2) = countEv ev l1 + countEv ev l2 := by
  simp [countEv, List.filter_append]

theorem countEv_cons_self (ev : Event) (l : List Event) :
    countEv ev (ev :: l) = countEv ev l + 1 := by
  simp [countEv]

theorem countEv_cons_ne (ev x : Event) (l : List Event) (h : x ≠ ev) :
    countEv ev (x :: l) = countEv ev l := by
  simp [countEv, List.filter_cons, h]

theorem countEv_eq_zero (ev : Event) (l : List Event) (h : ev ∉ l) :
    countEv ev l = 0 := by
  induction l with
  | nil => rfl
  | cons x xs ih =>
    have hx : x ≠ ev := by
      intro hh
      exact h (hh ▸ List.mem_cons_self x xs)
    rw [countEv_cons_ne ev x xs hx]
    exact ih (fun hm => h (List.mem_cons_of_mem x hm))

theorem mem_warn_ite {b : Bool} {m : String} {ev : Event}
    (h : ev ∈ (if b = true then ([] : List Event) else [Event.warn m])) :
    ∃ m', ev = Event.warn m' := by
  cases b <;> simp at h
  exact ⟨m, h⟩


/-- Shape of the events of the guarded container block. -/
theorem mem_containersBlock (e : CleanEnv) (ev : Event)
    (h : ev ∈ containersBlock e) :
    ev = Event.run psCmd ∨ (∃ c, ev = Event.run ["docker", "rm", "-f", c]) ∨
      ∃ m, ev = Event.warn m := by
  unfold containersBlock at h
  rcases List.mem_cons.mp h with h | h
  · exact Or.inl h
  cases hps : e.psOk
  · rw [hps] at h
    simp at h
    exact Or.inr (Or.inr ⟨_, h⟩)
  · rw [hps] at h
    simp at h
    obtain ⟨c, _, hc⟩ := h
    unfold rmContainerStep at hc
    rcases List.mem_cons.mp hc with hc | hc
    · exact Or.inr (Or.inl ⟨c, hc⟩)
    · exact Or.inr (Or.inr (mem_warn_ite hc))

/-- Shape of the events of the guarded network block. -/
theorem mem_networksBlock (e : CleanEnv) (ev : Event)
    (h : ev ∈ networksBlock e) :
    ev = Event.run netLsCmd ∨
      (∃ n, ev = Event.run ["docker", "network", "rm", "-f", n]) ∨
      ∃ m, ev = Event.warn m := by
  unfold networksBlock at h
  rcases List.mem_cons.mp h with h | h
  · exact Or.inl h
  cases hnl : e.netLsOk
  · rw [hnl] at h
    simp at h
    exact Or.inr (Or.inr ⟨_, h⟩)
  · rw [hnl] at h
    simp at h
    obtain ⟨n, _, hn⟩ := h
    unfold rmNetworkStep at hn
    rcases List.mem_cons.mp hn with hn | hn
    · exact Or.inr (Or.inl ⟨n, hn⟩)
    · exact Or.inr (Or.inr (mem_warn_ite hn))


/-- Shape of the events of the whole Environment Reclaimer trace. -/
theorem mem_clean (e : CleanEnv) (ev : Event)
    (h : ev ∈ (clean_docker_environment e).1) :
    ev = Event.run composeDownCmd ∨ ev = Event.run psCmd ∨
      ev = Event.run netLsCmd ∨
      ev = Event.run ["docker", "network", "rm", "localai_default"] ∨
      ev = Event.run pruneCmd ∨
      (∃ c, ev = Event.run ["docker", "rm", "-f", c]) ∨
      (∃ n, ev = Event.run ["docker", "network", "rm", "-f", n]) ∨
      (∃ m, ev = Event.warn m) ∨ (∃ s, ev = Event.sleep s) := by
  have rn : ∀ ev', ev' ∈ remove_network e.rmDefaultOk "localai_default" →
      ev' = Event.run ["docker", "network", "rm", "localai_default"] ∨
      ev' = Event.sleep 2 := by
    intro ev' h'
    unfold remove_network at h'
    rcases List.mem_cons.mp h' with h' | h'
    · exact Or.inl h'
    · cases hd : e.rmDefaultOk <;> rw [hd] at h' <;> simp at h'
      exact Or.inr h'
  have core : (ev = Event.run composeDownCmd ∨
      (e.composeDownOk = false ∧
        ev = Event.warn "Warning: Error during compose down") ∨
      ev ∈ containersBlock e ∨ ev ∈ networksBlock e ∨
      ev ∈ remove_network e.rmDefaultOk "localai_default" ∨
      ev = Event.run pruneCmd) →
      ev = Event.run composeDownCmd ∨ ev = Event.run psCmd ∨
      ev = Event.run netLsCmd ∨
      ev = Event.run ["docker", "network", "rm", "localai_default"] ∨
      ev = Event.run pruneCmd ∨
      (∃ c, ev = Event.run ["docker", "rm", "-f", c]) ∨
      (∃ n, ev = Event.run ["docker", "network", "rm", "-f", n]) ∨
      (∃ m, ev = Event.warn m) ∨ (∃ s, ev = Event.sleep s) := by
    intro hc
    rcases hc with hc | ⟨-, hc⟩ | hc | hc | hc | hc
    · exact Or.inl hc
    · exact Or.inr (Or.inr (Or.inr (Or.inr (Or.inr (Or.inr (Or.inr
        (Or.inl ⟨_, hc⟩)))))))
    · rcases mem_containersBlock e ev hc with h1 | h1 | h1
      · exact Or.inr (Or.inl h1)
      · exact Or.inr (Or.inr (Or.inr (Or.inr (Or.inr (Or.inl h1)))))
      · exact Or.inr (Or.inr (Or.inr (Or.inr (Or.inr (Or.inr (Or.inr
          (Or.inl h1)))))))
    · rcases mem_networksBlock e ev hc with h1 | h1 | h1
      · exact Or.inr (Or.inr (Or.inl h1))
      · exact Or.inr (Or.inr (Or.inr (Or.inr (Or.inr (Or.inr (Or.inl h1))))))
      · exact Or.inr (Or.inr (Or.inr (Or.inr (Or.inr (Or.inr (Or.inr
          (Or.inl h1)))))))
    · rcases rn ev hc with h1 | h1
      · exact Or.inr (Or.inr (Or.inr (Or.inl h1)))
      · exact Or.inr (Or.inr (Or.inr (Or.inr (Or.inr (Or.inr (Or.inr
          (Or.inr ⟨2, h1⟩)))))))
    · exact Or.inr (Or.inr (Or.inr (Or.inr (Or.inl hc))))
  unfold clean_docker_environment at h
  cases hp : e.pruneOk <;> rw [hp] at h <;> simp at h
  · exact core h
  · rcases h with h | h | h | h | h | h | h | h
    · exact core (Or.inl h)
    · exact core (Or.inr (Or.inl h))
    · exact core (Or.inr (Or.inr (Or.inl h)))
    · exact core (Or.inr (Or.inr (Or.inr (Or.inl h))))
    · exact core (Or.inr (Or.inr (Or.inr (Or.inr (Or.inl h)))))
    · exact core (Or.inr (Or.inr (Or.inr (Or.inr (Or.inr h)))))
    · exact Or.inr (Or.inr (Or.inr (Or.inr (Or.inr (Or.inr (Or.inr
        (Or.inr ⟨10, h⟩)))))))
    · exact Or.inr (Or.inr (Or.inr (Or.inr (Or.inr (Or.inr (Or.inr
        (Or.inr ⟨3, h⟩)))))))

/-- The dependency-stack `up` command never occurs in a Reclaimer trace. -/
theorem clean_no_upcmd (e : CleanEnv) :
    Event.run supabaseUpCmd ∉ (clean_docker_environment e).1 := by
  intro h
  rcases mem_clean e _ h with h | h | h | h | h | ⟨c, h⟩ | ⟨n, h⟩ | ⟨m, h⟩ |
    ⟨s, h⟩ <;>
    simp [supabaseUpCmd, composeDownCmd, psCmd, netLsCmd, pruneCmd] at h

theorem composeDown_notin_blocks (e : CleanEnv) :
    Event.run composeDownCmd ∉ containersBlock e ∧
    Event.run composeDownCmd ∉ networksBlock e ∧
    Event.run composeDownCmd ∉ remove_network e.rmDefaultOk
      "localai_default" := by
  refine ⟨?_, ?_, ?_⟩ <;> intro h
  · rcases mem_containersBlock e _ h with h | ⟨c, h⟩ | ⟨m, h⟩ <;>
      simp [composeDownCmd, psCmd] at h
  · rcases mem_networksBlock e _ h with h | ⟨n, h⟩ | ⟨m, h⟩ <;>
      simp [composeDownCmd, netLsCmd] at h
  · unfold remove_network at h
    rcases List.mem_cons.mp h with h | h
    · simp [composeDownCmd] at h
    · cases hd : e.rmDefaultOk <;> rw [hd] at h <;> simp at h


/-- Each Reclaimer run performs exactly one compose-down invocation. -/
theorem clean_count_composeDown (e : CleanEnv) :
    countEv (Event.run composeDownCmd) (clean_docker_environment e).1 = 1 := by
  obtain ⟨hc, hn, hr⟩ := composeDown_notin_blocks e
  have hifp : countEv (Event.run composeDownCmd)
      (if e.composeDownOk = true then ([] : List Event)
       else [Event.warn "Warning: Error during compose down"]) = 0 := by
    cases hcd : e.composeDownOk <;> decide
  unfold clean_docker_environment
  cases hp : e.pruneOk <;>
    simp only [reduceIte, Bool.false_eq_true, if_false] <;>
    simp only [countEv_append]
  · rw [countEv_cons_self, hifp, countEv_eq_zero _ _ hc,
      countEv_eq_zero _ _ hn, countEv_eq_zero _ _ hr,
      countEv_cons_ne _ _ _ (by decide), countEv_nil]
  · rw [countEv_cons_self, hifp, countEv_eq_zero _ _ hc,
      countEv_eq_zero _ _ hn, countEv_eq_zero _ _ hr,
      countEv_cons_ne _ _ _ (by decide), countEv_cons_ne _ _ _ (by decide),
      countEv_cons_ne _ _ _ (by decide), countEv_nil]

/-- A Reclaimer run whose final prune succeeds completes normally. -/
theorem clean_ok_of_pruneOk (e : CleanEnv) (hp : e.pruneOk = true) :
    (clean_docker_environment e).2 = Outcome.ok := by
  unfold clean_docker_environment
  rw [hp]
  simp only [reduceIte]

/-- The Reclaimer never raises `SystemExit`. -/
theorem clean_noexit (e : CleanEnv) :
    ∀ c, (clean_docker_environment e).2 ≠ Outcome.exited c := by
  intro c
  unfold clean_docker_environment
  cases hp : e.pruneOk <;> simp

theorem localAiCmd_ne_composeDown (p : Option String) :
    localAiCmd p ≠ composeDownCmd := by
  intro h
  rcases p with _ | p <;> simp only [localAiCmd] at h
  · simp [composeDownCmd] at h
  · split at h <;> simp [composeDownCmd] at h

/-- Attempt count, reclaim count, inter-attempt sleeps and exhaustion
outcome of the primary-stack launcher, for every outcome sequence. -/
theorem start_local_ai_behaviour (p : Option String) (lu : Nat → Bool) :
    countEv (Event.run (localAiCmd p)) (start_local_ai p lu).1 =
      cappedAttempts lu ∧
    countEv (Event.run composeDownCmd) (start_local_ai p lu).1 = 0 ∧
    countEv (Event.sleep 10) (start_local_ai p lu).1 =
      cappedAttempts lu - 1 ∧
    ((∀ i, lu i = false) → (start_local_ai p lu).2 =
      Outcome.raised "Failed to start local AI services after multiple attempts") := by
  unfold start_local_ai
  cases h0 : lu 0
  · cases h1 : lu 1
    · cases h2 : lu 2
      · refine ⟨?_, ?_, ?_, fun _ => ?_⟩ <;>
          simp [startLocalAiGo, h0, h1, h2, cappedAttempts, countEv_cons_self,
            countEv_cons_ne, countEv_nil, localAiCmd_ne_composeDown p]
      · refine ⟨?_, ?_, ?_, fun hall => absurd (hall 2) (by simp [h2])⟩ <;>
          simp [startLocalAiGo, h0, h1, h2, cappedAttempts, countEv_cons_self,
            countEv_cons_ne, countEv_nil, localAiCmd_ne_composeDown p]
    · refine ⟨?_, ?_, ?_, fun hall => absurd (hall 1) (by simp [h1])⟩ <;>
        simp [startLocalAiGo, h0, h1, cappedAttempts, countEv_cons_self,
          countEv_cons_ne, countEv_nil, localAiCmd_ne_composeDown p]
  · refine ⟨?_, ?_, ?_, fun hall => absurd (hall 0) (by simp [h0])⟩ <;>
      simp [startLocalAiGo, h0, cappedAttempts, countEv_cons_self,
        countEv_cons_ne, countEv_nil, localAiCmd_ne_composeDown p]


/-- Attempt count, reclaim count and exhaustion outcome of the
dependency-stack launcher, for every outcome sequence, when the interleaved
Reclaimer runs complete (their prune succeeds). -/
theorem start_supabase_behaviour (se : SupaEnv)
    (hcf : se.composeFileExists = true)
    (hcl : ∀ i, (se.cleanEnvs i).pruneOk = true) :
    countEv (Event.run supabaseUpCmd) (start_supabase se).1 =
      cappedAttempts se.upOk ∧
    countEv (Event.run composeDownCmd) (start_supabase se).1 =
      cappedAttempts se.upOk - 1 ∧
    ((∀ i, se.upOk i = false) → (start_supabase se).2 =
      Outcome.raised "Failed to start Supabase services after multiple attempts") := by
  have e0 := clean_ok_of_pruneOk (se.cleanEnvs 0) (hcl 0)
  have e1 := clean_ok_of_pruneOk (se.cleanEnvs 1) (hcl 1)
  have c0u := countEv_eq_zero _ _ (clean_no_upcmd (se.cleanEnvs 0))
  have c1u := countEv_eq_zero _ _ (clean_no_upcmd (se.cleanEnvs 1))
  have c0d := clean_count_composeDown (se.cleanEnvs 0)
  have c1d := clean_count_composeDown (se.cleanEnvs 1)
  have hne : Event.run supabaseUpCmd ≠ Event.run composeDownCmd := by
    simp [supabaseUpCmd, composeDownCmd]
  unfold start_supabase
  rw [if_pos hcf]
  cases h0 : se.upOk 0
  · cases h1 : se.upOk 1
    · cases h2 : se.upOk 2
      · refine ⟨?_, ?_, fun _ => ?_⟩ <;>
          simp [startSupabaseGo, h0, h1, h2, e0, e1, cappedAttempts,
            countEv_append, countEv_cons_self, countEv_cons_ne, countEv_nil,
            c0u, c1u, c0d, c1d, hne]
      · refine ⟨?_, ?_, fun hall => absurd (hall 2) (by simp [h2])⟩ <;>
          simp [startSupabaseGo, h0, h1, h2, e0, e1, cappedAttempts,
            countEv_append, countEv_cons_self, countEv_cons_ne, countEv_nil,
            c0u, c1u, c0d, c1d, hne]
    · refine ⟨?_, ?_, fun hall => absurd (hall 1) (by simp [h1])⟩ <;>
        simp [startSupabaseGo, h0, h1, e0, cappedAttempts,
          countEv_append, countEv_cons_self, countEv_cons_ne, countEv_nil,
          c0u, c0d, hne]
  · refine ⟨?_, ?_, fun hall => absurd (hall 0) (by simp [h0])⟩ <;>
      simp [startSupabaseGo, h0, cappedAttempts, countEv_cons_self,
        countEv_cons_ne, countEv_nil, hne]

theorem seqO_snd_ok (a : List Event × Outcome)
    (k : Unit → List Event × Outcome) (h : a.2 = Outcome.ok) :
    (seqO a k).2 = (k ()).2 := by
  rcases a with ⟨l, o⟩
  simp only at h
  subst h
  rfl

theorem seqO_fst_ok (a : List Event × Outcome)
    (k : Unit → List Event × Outcome) (h : a.2 = Outcome.ok) :
    (seqO a k).1 = a.1 ++ (k ()).1 := by
  rcases a with ⟨l, o⟩
  simp only at h
  subst h
  rfl

theorem seqO_stop (a : List Event × Outcome)
    (k : Unit → List Event × Outcome) (h : a.2 ≠ Outcome.ok) :
    seqO a k = a := by
  rcases a with ⟨l, o⟩
  cases o
  · simp at h
  · rfl
  · rfl

/-- Every event of a `seqO` chain comes from one of the two sides. -/
theorem seqO_forall {P : Event → Prop} (a : List Event × Outcome)
    (k : Unit → List Event × Outcome)
    (ha : ∀ ev ∈ a.1, P ev) (hk : ∀ ev ∈ (k ()).1, P ev) :
    ∀ ev ∈ (seqO a k).1, P ev := by
  rcases a with ⟨l, o⟩
  cases o with
  | ok =>
    intro ev hev
    rcases List.mem_append.mp (by simpa [seqO] using hev) with h | h
    · exact ha ev h
    · exact hk ev h
  | raised m => exact ha
  | exited c => exact ha

/-- A `seqO` chain whose sides only ever exit with status 1 does the same. -/
theorem seqO_exit_one (a : List Event × Outcome)
    (k : Unit → List Event × Outcome)
    (ha : ∀ c, a.2 = Outcome.exited c → c = 1)
    (hk : ∀ c, (k ()).2 = Outcome.exited c → c = 1) :
    ∀ c, (seqO a k).2 = Outcome.exited c → c = 1 := by
  rcases a with ⟨l, o⟩
  cases o with
  | ok => intro c h; exact hk c (by simpa [seqO] using h)
  | raised m => exact ha
  | exited c => exact ha

theorem mainRun_invalid (e : MainEnv) (p : String) (ssl : Bool)
    (h : p ∉ profileChoices) : mainRun e p ssl = ([], 2) := by
  unfold mainRun
  rw [if_neg h]

theorem mainRun_trace (e : MainEnv) (p : String) (ssl : Bool)
    (hp : p ∈ profileChoices) : (mainRun e p ssl).1 = (mainBody e p ssl).1 := by
  unfold mainRun
  rw [if_pos hp]
  rcases hB : mainBody e p ssl with ⟨evs, o⟩
  cases o <;> rfl

theorem mainRun_exit_ok (e : MainEnv) (p : String) (ssl : Bool)
    (hp : p ∈ profileChoices) (h : (mainBody e p ssl).2 = Outcome.ok) :
    (mainRun e p ssl).2 = 0 := by
  unfold mainRun
  rw [if_pos hp]
  rcases hB : mainBody e p ssl with ⟨evs, o⟩
  rw [hB] at h
  simp only at h
  subst h
  rfl

theorem mainRun_exit_raised (e : MainEnv) (p : String) (ssl : Bool)
    (m : String) (hp : p ∈ profileChoices)
    (h : (mainBody e p ssl).2 = Outcome.raised m) :
    (mainRun e p ssl).2 = 1 := by
  unfold mainRun
  rw [if_pos hp]
  rcases hB : mainBody e p ssl with ⟨evs, o⟩
  rw [hB] at h
  simp only at h
  subst h
  rfl

theorem mainRun_exit_exited (e : MainEnv) (p : String) (ssl : Bool)
    (c : Nat) (hp : p ∈ profileChoices)
    (h : (mainBody e p ssl).2 = Outcome.exited c) :
    (mainRun e p ssl).2 = c := by
  unfold mainRun
  rw [if_pos hp]
  rcases hB : mainBody e p ssl with ⟨evs, o⟩
  rw [hB] at h
  simp only at h
  subst h
  rfl

/-- The prerequisite checker only ever exits with status 1. -/
theorem check_prerequisites_exit_one (e : PrereqEnv) :
    ∀ c, (check_prerequisites e).2 = Outcome.exited c → c = 1 := by
  intro c h
  obtain ⟨d, co, g⟩ := e
  cases d <;> cases co <;> cases g <;>
    simp [check_prerequisites] at h <;> omega

/-- The environment preparer only ever exits with status 1. -/
theorem prepare_exit_one (b : Bool) :
    ∀ c, (prepare_supabase_env b).2 = Outcome.exited c → c = 1 := by
  intro c h
  cases b <;> simp [prepare_supabase_env] at h
  omega

/-- The dependency-stack launcher never raises `SystemExit`. -/
theorem startSupabaseGo_noexit (e : SupaEnv) :
    ∀ fuel i c, (startSupabaseGo e i fuel).2 ≠ Outcome.exited c := by
  intro fuel
  induction fuel with
  | zero => intro i c; simp [startSupabaseGo]
  | succ n ih =>
    intro i c
    cases hu : e.upOk i
    · by_cases hn : n > 0
      · rcases ho : (clean_docker_environment (e.cleanEnvs i)).2 with _ | m | c'
        · simp [startSupabaseGo, hu, hn, ho]
          exact ih (i + 1) c
        · simp [startSupabaseGo, hu, hn, ho]
        · exact absurd ho (clean_noexit (e.cleanEnvs i) c')
      · simp [startSupabaseGo, hu, hn]
    · simp [startSupabaseGo, hu]

/-- The primary-stack launcher never raises `SystemExit`. -/
theorem startLocalAiGo_noexit (upOk : Nat → Bool) (cmd : List String) :
    ∀ fuel i c, (startLocalAiGo upOk cmd i fuel).2 ≠ Outcome.exited c := by
  intro fuel
  induction fuel with
  | zero => intro i c; simp [startLocalAiGo]
  | succ n ih =>
    intro i c
    cases hu : upOk i
    · by_cases hn : n > 0
      · simp [startLocalAiGo, hu, hn]
        exact ih (i + 1) c
      · simp [startLocalAiGo, hu, hn]
    · simp [startLocalAiGo, hu]

/-- The whole `try` block of `main` only ever exits with status 1 (the
`sys.exit(1)` calls of the prerequisite checker and environment
preparer). -/
theorem mainBody_exit_one (e : MainEnv) (p : String) (ssl : Bool) :
    ∀ c, (mainBody e p ssl).2 = Outcome.exited c → c = 1 := by
  unfold mainBody
  refine seqO_exit_one _ _ (check_prerequisites_exit_one e.prereq) ?_
  refine seqO_exit_one _ _
    (fun c h => absurd h (clone_supabase_repo_noexit e.fetch ssl c)) ?_
  refine seqO_exit_one _ _ (prepare_exit_one e.envFileExists) ?_
  refine seqO_exit_one _ _
    (fun c h => absurd h (clean_noexit e.mainClean c)) ?_
  refine seqO_exit_one _ _
    (fun c h => by
      unfold start_supabase at h
      split at h
      · exact absurd h (startSupabaseGo_noexit e.supa 3 0 c)
      · exact Outcome.noConfusion h) ?_
  refine seqO_exit_one _ _ (fun c h => Outcome.noConfusion h) ?_
  refine seqO_exit_one _ _
    (fun c h => absurd h
      (startLocalAiGo_noexit e.localUpOk (localAiCmd (some p)) 3 0 c)) ?_
  exact fun c h => Outcome.noConfusion h

/-- Events of the prerequisite checker are never orchestration commands
(they are exactly the version queries). -/
theorem check_prerequisites_not_orch (e : PrereqEnv) :
    ∀ ev ∈ (check_prerequisites e).1, isOrchestrationEv ev = false := by
  intro ev hev
  unfold check_prerequisites at hev
  split_ifs at hev <;> simp at hev <;>
    rcases hev with rfl | rfl | rfl <;> decide

/-- A failed prerequisite combination makes the checker exit 1. -/
theorem check_prerequisites_fail (e : PrereqEnv)
    (h : (e.dockerOk && e.composeOk && e.gitOk) = false) :
    (check_prerequisites e).2 = Outcome.exited 1 := by
  obtain ⟨d, co, g⟩ := e
  simp only at h
  cases d <;> cases co <;> cases g <;> simp_all [check_prerequisites]

/-- C3: each Stack Launcher performs exactly `min(attempts_until_success, 3)`
`up -d` invocations; the dependency-stack launcher runs the Environment
Reclaimer exactly once per failed attempt excluding the last (counted by its
compose-down invocations), while the primary-stack launcher sleeps 10
seconds between attempts and never reclaims; exhausting all 3 attempts
raises and, inside `main`, yields process exit status 1. -/
theorem claim3_launch_retry (se : SupaEnv) (lu : Nat → Bool)
    (p : Option String) (hcf : se.composeFileExists = true)
    (hcl : ∀ i, (se.cleanEnvs i).pruneOk = true) :
    countEv (Event.run supabaseUpCmd) (start_supabase se).1 =
      cappedAttempts se.upOk ∧
    countEv (Event.run composeDownCmd) (start_supabase se).1 =
      cappedAttempts se.upOk - 1 ∧
    countEv (Event.run (localAiCmd p)) (start_local_ai p lu).1 =
      cappedAttempts lu ∧
    countEv (Event.run composeDownCmd) (start_local_ai p lu).1 = 0 ∧
    countEv (Event.sleep 10) (start_local_ai p lu).1 =
      cappedAttempts lu - 1 ∧
    ((∀ i, se.upOk i = false) →
      (start_supabase se).2 =
        Outcome.raised "Failed to start Supabase services after multiple attempts" ∧
      (mainRun { allOkMainEnv with supa := se } "cpu" true).2 = 1) ∧
    ((∀ i, lu i = false) →
      (start_local_ai p lu).2 =
        Outcome.raised "Failed to start local AI services after multiple attempts" ∧
      (mainRun { allOkMainEnv with localUpOk := lu } "cpu" true).2 = 1) := by
  obtain ⟨s1, s2, s3⟩ := start_supabase_behaviour se hcf hcl
  obtain ⟨l1, l2, l3, l4⟩ := start_local_ai_behaviour p lu
  refine ⟨s1, s2, l1, l2, l3, fun hf => ⟨s3 hf, ?_⟩, fun hf => ⟨l4 hf, ?_⟩⟩
  · apply mainRun_exit_raised _ _ _
      "Failed to start Supabase services after multiple attempts" (by decide)
    unfold mainBody
    rw [seqO_snd_ok _ _ rfl, seqO_snd_ok _ _ rfl, seqO_snd_ok _ _ rfl,
      seqO_snd_ok _ _ rfl,
      seqO_stop _ _ (by rw [show ({ allOkMainEnv with supa := se } :
        MainEnv).supa = se from rfl, s3 hf]; simp)]
    rw [show ({ allOkMainEnv with supa := se } : MainEnv).supa = se from rfl]
    exact s3 hf
  · apply mainRun_exit_raised _ _ _
      "Failed to start local AI services after multiple attempts" (by decide)
    unfold mainBody
    have hlo := (start_local_ai_behaviour (some "cpu") lu).2.2.2 hf
    rw [seqO_snd_ok _ _ rfl, seqO_snd_ok _ _ rfl, seqO_snd_ok _ _ rfl,
      seqO_snd_ok _ _ rfl, seqO_snd_ok _ _ rfl, seqO_snd_ok _ _ rfl,
      seqO_stop _ _ (by rw [show ({ allOkMainEnv with localUpOk := lu } :
        MainEnv).localUpOk = lu from rfl, hlo]; simp)]
    rw [show ({ allOkMainEnv with localUpOk := lu } :
      MainEnv).localUpOk = lu from rfl]
    exact hlo

/-- C3 witness: with every dependency-stack attempt failing and every
cleanup succeeding, there are exactly 3 launch attempts, 2 reclaims, and the
procedure exits 1. -/
theorem claim3_witness :
    countEv (Event.run supabaseUpCmd) (start_supabase allFailSupa).1 = 3 ∧
    countEv (Event.run composeDownCmd) (start_supabase allFailSupa).1 = 2 ∧
    (mainRun { allOkMainEnv with supa := allFailSupa } "cpu" true).2 = 1 := by
  have h := claim3_launch_retry allFailSupa (fun _ => false) (some "cpu") rfl
    (fun i => rfl)
  exact ⟨h.1, h.2.1, (h.2.2.2.2.2.1 (fun i => rfl)).2⟩

/-- C6: when the root `.env` file is absent, the procedure exits non-zero
and never invokes a container-orchestration command (beyond the version
queries, which precede the check). -/
theorem claim6_missing_env_file (e : MainEnv) (p : String) (ssl : Bool)
    (h : e.envFileExists = false) :
    (mainRun e p ssl).2 ≠ 0 ∧
    ∀ ev ∈ (mainRun e p ssl).1, isOrchestrationEv ev = false := by
  by_cases hp : p ∈ profileChoices
  · constructor
    · have hne : (mainBody e p ssl).2 ≠ Outcome.ok := by
        unfold mainBody
        by_cases h1 : (check_prerequisites e.prereq).2 = Outcome.ok
        · rw [seqO_snd_ok _ _ h1]
          by_cases h2 : (clone_supabase_repo e.fetch ssl).2.2 = Outcome.ok
          · rw [seqO_snd_ok _ _ h2]
            rw [seqO_stop _ _ (by simp [prepare_supabase_env, h])]
            simp [prepare_supabase_env, h]
          · rw [seqO_stop _ _ h2]
            exact h2
        · rw [seqO_stop _ _ h1]
          exact h1
      intro h0
      rcases hB : (mainBody e p ssl).2 with _ | m | c
      · exact hne hB
      · rw [mainRun_exit_raised e p ssl m hp hB] at h0
        exact absurd h0 (by decide)
      · have hc1 := mainBody_exit_one e p ssl c hB
        rw [mainRun_exit_exited e p ssl c hp hB] at h0
        omega
    · rw [mainRun_trace e p ssl hp]
      unfold mainBody
      by_cases h1 : (check_prerequisites e.prereq).2 = Outcome.ok
      · rw [seqO_fst_ok _ _ h1]
        intro ev hev
        rcases List.mem_append.mp hev with hev | hev
        · exact check_prerequisites_not_orch e.prereq ev hev
        · by_cases h2 : (clone_supabase_repo e.fetch ssl).2.2 = Outcome.ok
          · rw [seqO_fst_ok _ _ h2] at hev
            rcases List.mem_append.mp hev with hev | hev
            · have hD := clone_supabase_repo_no_docker e.fetch ssl ev hev
              simp [isOrchestrationEv, hD]
            · rw [seqO_stop _ _
                (by simp [prepare_supabase_env, h] :
                  (prepare_supabase_env e.envFileExists).2 ≠ Outcome.ok)]
                at hev
              simp [prepare_supabase_env, h] at hev
          · rw [seqO_stop _ _ h2] at hev
            have hD := clone_supabase_repo_no_docker e.fetch ssl ev hev
            simp [isOrchestrationEv, hD]
      · rw [seqO_stop _ _ h1]
        exact check_prerequisites_not_orch e.prereq
  · rw [mainRun_invalid e p ssl hp]
    exact ⟨by decide, by simp⟩

/-- C6 witness: the theorem at the concrete all-success environment with the
`.env` file missing. -/
theorem claim6_witness :
    (mainRun noEnvFileMainEnv "cpu" true).2 ≠ 0 ∧
    ∀ ev ∈ (mainRun noEnvFileMainEnv "cpu" true).1,
      isOrchestrationEv ev = false :=
  claim6_missing_env_file noEnvFileMainEnv "cpu" true rfl

/-- C7: when any of the three tool version queries fails, the process exits
non-zero without performing any fetch step or launch invocation, and no
version query is retried (each appears at most once in the trace). -/
theorem claim7_prereq_failure (e : MainEnv) (p : String) (ssl : Bool)
    (h : (e.prereq.dockerOk && e.prereq.composeOk && e.prereq.gitOk) =
      false) :
    (mainRun e p ssl).2 ≠ 0 ∧
    (∀ ev ∈ (mainRun e p ssl).1,
      isFetchStepEv ev = false ∧ isUpEv ev = false) ∧
    countEv (Event.run dockerVersionCmd) (mainRun e p ssl).1 ≤ 1 ∧
    countEv (Event.run composeVersionCmd) (mainRun e p ssl).1 ≤ 1 ∧
    countEv (Event.run gitVersionCmd) (mainRun e p ssl).1 ≤ 1 := by
  by_cases hp : p ∈ profileChoices
  · have hfail := check_prerequisites_fail e.prereq h
    have hexit : (mainRun e p ssl).2 = 1 := by
      apply mainRun_exit_exited e p ssl 1 hp
      unfold mainBody
      rw [seqO_stop _ _ (by rw [hfail]; simp)]
      exact hfail
    have ht : (mainRun e p ssl).1 = (check_prerequisites e.prereq).1 := by
      rw [mainRun_trace e p ssl hp]
      unfold mainBody
      rw [seqO_stop _ _ (by rw [hfail]; simp)]
    rw [hexit, ht]
    refine ⟨by decide, ?_, ?_, ?_, ?_⟩ <;>
      (cases hd : e.prereq.dockerOk <;> cases hc : e.prereq.composeOk <;>
        cases hg : e.prereq.gitOk <;>
        first
          | (rw [hd, hc, hg] at h; exact absurd h (by decide))
          | (simp only [check_prerequisites, hd, hc, hg, reduceIte]; decide))
  · rw [mainRun_invalid e p ssl hp]
    exact ⟨by decide, by simp, by decide, by decide, by decide⟩

/-- C7 witness: the theorem at the concrete environment where the first
version query fails. -/
theorem claim7_witness :
    (mainRun noDockerMainEnv "cpu" true).2 ≠ 0 ∧
    (∀ ev ∈ (mainRun noDockerMainEnv "cpu" true).1,
      isFetchStepEv ev = false ∧ isUpEv ev = false) ∧
    countEv (Event.run dockerVersionCmd)
      (mainRun noDockerMainEnv "cpu" true).1 ≤ 1 ∧
    countEv (Event.run composeVersionCmd)
      (mainRun noDockerMainEnv "cpu" true).1 ≤ 1 ∧
    countEv (Event.run gitVersionCmd)
      (mainRun noDockerMainEnv "cpu" true).1 ≤ 1 :=
  claim7_prereq_failure noDockerMainEnv "cpu" true rfl

/-- C8 (amended): a `--profile` value outside the accepted set makes the
process exit with status 2 (the argument parser's usage error) before any
side effect; with an accepted value, every unrecoverable failure at a later
stage — any run of the `try` block that does not complete normally — yields
exit status 1, a run of the `try` block that completes normally yields exit
status 0, and on the all-success environment the status is 0 for every
accepted profile. -/
theorem claim8_exit_codes (e : MainEnv) (p : String) (ssl : Bool) :
    (p ∉ profileChoices → mainRun e p ssl = ([], 2)) ∧
    (p ∈ profileChoices → (mainBody e p ssl).2 ≠ Outcome.ok →
      (mainRun e p ssl).2 = 1) ∧
    (p ∈ profileChoices → (mainBody e p ssl).2 = Outcome.ok →
      (mainRun e p ssl).2 = 0) ∧
    (p ∈ profileChoices → (mainRun allOkMainEnv p ssl).2 = 0) := by
  refine ⟨fun hn => mainRun_invalid e p ssl hn, fun hp hf => ?_,
    fun hp hs => mainRun_exit_ok e p ssl hp hs, fun hp => ?_⟩
  · rcases hB : (mainBody e p ssl).2 with _ | m | c
    · exact absurd hB hf
    · exact mainRun_exit_raised e p ssl m hp hB
    · have hc1 := mainBody_exit_one e p ssl c hB
      rw [mainRun_exit_exited e p ssl c hp hB, hc1]
  · apply mainRun_exit_ok allOkMainEnv p ssl hp
    simp [profileChoices] at hp
    rcases hp with rfl | rfl | rfl | rfl <;> cases ssl <;> rfl

/-- C8 witness: the amended theorem applied with the accepted profile `cpu`
at the all-success environment (exit 0) and at an environment whose run
fails at the environment-preparation stage (exit 1). -/
theorem claim8_witness :
    (mainRun allOkMainEnv "cpu" true).2 = 0 ∧
    (mainRun noEnvFileMainEnv "cpu" true).2 = 1 :=
  ⟨(claim8_exit_codes allOkMainEnv "cpu" true).2.2.2 (by decide),
   (claim8_exit_codes noEnvFileMainEnv "cpu" true).2.1 (by decide)
     (by decide)⟩

/-- C8 counterexample: the claim says an invalid `--profile` value exits
with status 1; the argument parser exits with status 2 before any side
effect. -/
theorem claim8_counterexample :
    (mainRun allOkMainEnv "invalid-value" true).2 = 2 ∧
    (mainRun allOkMainEnv "invalid-value" true).2 ≠ 1 ∧
    (mainRun allOkMainEnv "invalid-value" true).1 = [] := by
  decide
